import Mathlib

/-!
Verification of the amundsen metadata-service user API and its relationship
proxy contract.  The request handlers are embedded from
src/metadata_service/api/user.py; the abstract storage contract is declared in
src/metadata_service/proxy/base_proxy.py, whose concrete implementation is not
in the source tree and is therefore modelled from the specification where a
claim depends on it.
-/

namespace AmundsenMeta

/-- Modelled from the spec: metadata_service/util.py (UserResourceRel) is not
under src/; the data model fixes the relation types FOLLOW and OWN, plus the
read-frequency relation used by the usage tracker. -/
inductive UserResourceRel
  | follow
  | own
  | read
deriving DecidableEq, Repr

/-- Exceptions a proxy call can surface to a handler.  `notFound` embeds
metadata_service/exception.py NotFoundException (imported by user.py);
`invalidArgument` embeds the InvalidArgument classification of the error
taxonomy; `other` stands for any other exception raised by the storage
layer. -/
inductive ProxyExc
  | notFound
  | invalidArgument
  | other (msg : String)
deriving DecidableEq, Repr

/-- Body of a handler response: either marshalled data or a message
dictionary, as produced by the handlers in user.py. -/
inductive Payload (α : Type)
  | data (d : α)
  | message (m : String)
deriving DecidableEq, Repr

/-- Response of a handler: body plus HTTP status code, embedding the
`return body, HTTPStatus.X` pairs of user.py. -/
structure Resp (α : Type) where
  body : Payload α
  status : Nat
deriving DecidableEq, Repr

/-- UserFollowsAPI.get (user.py lines 60-77): marshals the proxy result with
status 200, turns NotFoundException into a 404 message, and any other
exception into a 500 Internal message.  The proxy call it makes
(get_table_by_user_relation with relation_type follow) is passed in as its
outcome `call`, since the client is injected by get_proxy_client. -/
def UserFollowsAPI_get {α : Type} (user_id : String) (call : Except ProxyExc α) : Resp α :=
  match call with
  | .ok resources => ⟨.data resources, 200⟩
  | .error .notFound => ⟨.message ("user_id " ++ user_id ++ " does not exist"), 404⟩
  | .error _ => ⟨.message "Internal server error!", 500⟩

/-- UserOwnsAPI.get (user.py lines 147-166): like UserFollowsAPI.get but with
an explicit branch on whether the resource list is empty; both branches
return status 200. -/
def UserOwnsAPI_get {α : Type} (user_id : String) (call : Except ProxyExc (List α)) : Resp (List α) :=
  match call with
  | .ok resources =>
      if resources.length > 0 then ⟨.data resources, 200⟩
      else ⟨.data [], 200⟩
  | .error .notFound => ⟨.message ("user_id " ++ user_id ++ " does not exist"), 404⟩
  | .error _ => ⟨.message "Internal server error!", 500⟩

/-- UserReadsAPI.get (user.py lines 223-239): marshals the result of
get_frequently_used_tables, with the same NotFound / Internal
classification as UserFollowsAPI.get. -/
def UserReadsAPI_get {α : Type} (user_id : String) (call : Except ProxyExc α) : Resp α :=
  match call with
  | .ok resources => ⟨.data resources, 200⟩
  | .error .notFound => ⟨.message ("user_id " ++ user_id ++ " does not exist"), 404⟩
  | .error _ => ⟨.message "Internal server error!", 500⟩

/-- UserFollowAPI.put (user.py lines 90-111): returns 200 on success and
catches EVERY exception (`except Exception`), returning 500; there is no
NotFoundException branch. -/
def UserFollowAPI_put (user_id : String) (table_uri : String)
    (call : Except ProxyExc Unit) : Resp Unit :=
  match call with
  | .ok _ => ⟨.message ("The user " ++ user_id ++ " for table_uri " ++ table_uri
      ++ " is added successfully"), 200⟩
  | .error _ => ⟨.message ("The user " ++ user_id ++ " for table_uri " ++ table_uri
      ++ " is not added successfully"), 500⟩

/-- UserFollowAPI.delete (user.py lines 114-135): returns 200 on success and
catches every exception, returning 500. -/
def UserFollowAPI_delete (user_id : String) (table_uri : String)
    (call : Except ProxyExc Unit) : Resp Unit :=
  match call with
  | .ok _ => ⟨.message ("The user following " ++ user_id ++ " for table_uri " ++ table_uri
      ++ " is deleted successfully"), 200⟩
  | .error _ => ⟨.message ("The user " ++ user_id ++ " for table_uri " ++ table_uri
      ++ " is not deleted successfully"), 500⟩

/-- UserOwnAPI.put (user.py lines 180-198): delegates to add_owner, returns
200 on success and catches every exception, returning 500; there is no
NotFoundException branch. -/
def UserOwnAPI_put (user_id : String) (table_uri : String)
    (call : Except ProxyExc Unit) : Resp Unit :=
  match call with
  | .ok _ => ⟨.message ("The owner " ++ user_id ++ " for table_uri " ++ table_uri
      ++ " is added successfully"), 200⟩
  | .error _ => ⟨.message ("The owner " ++ user_id ++ " for table_uri " ++ table_uri
      ++ " is not added successfully"), 500⟩

/-- UserOwnAPI.delete (user.py lines 201-211): delegates to delete_owner,
returns 200 on success and catches every exception, returning 500. -/
def UserOwnAPI_delete (user_id : String) (table_uri : String)
    (call : Except ProxyExc Unit) : Resp Unit :=
  match call with
  | .ok _ => ⟨.message ("The owner " ++ user_id ++ " for table_uri " ++ table_uri
      ++ " is deleted successfully"), 200⟩
  | .error _ => ⟨.message ("The owner " ++ user_id ++ " for table_uri " ++ table_uri
      ++ " is not deleted successfully"), 500⟩

/-- Modelled from the spec: the concrete proxy behind BaseProxy (the graph
store adapter) is not under src/.  Its observable state per the data model:
resolving users (identified by email) and resources (identified by URI),
relation edges (user, resource, type), owner edges (table, owner),
table and column descriptions (at most one current value per scope),
per (user, resource) read counters with last-read timestamp, the set of
existing columns of the resources, and the latest-updated timestamp. -/
structure Store where
  users : List String
  resources : List String
  relations : List (String × String × UserResourceRel)
  owners : List (String × String)
  tableDescs : List (String × String)
  columns : List (String × String)
  columnDescs : List ((String × String) × String)
  readCounts : List ((String × String) × (Nat × Nat))
  latestTs : Nat
deriving DecidableEq, Repr

/-- Modelled from the spec: BaseProxy.get_user (declared base_proxy.py lines
16-18, returning `Union of UserEntity and None`); the entity store resolves a
user id to the user (represented by its email key) or to none. -/
def get_user (s : Store) (id : String) : Option String :=
  if id ∈ s.users then some id else none

/-- Modelled from the spec: BaseProxy.add_table_relation_by_user (declared
base_proxy.py lines 89-94).  Both endpoints must resolve, else NotFound;
adding an existing edge is a no-op success (at most one edge per triple). -/
def add_table_relation_by_user (s : Store) (table_uri : String) (user_email : String)
    (relation_type : UserResourceRel) : Except ProxyExc Store :=
  if user_email ∈ s.users then
    if table_uri ∈ s.resources then
      if (user_email, table_uri, relation_type) ∈ s.relations then Except.ok s
      else Except.ok { s with relations := (user_email, table_uri, relation_type) :: s.relations }
    else Except.error ProxyExc.notFound
  else Except.error ProxyExc.notFound

/-- Modelled from the spec: BaseProxy.delete_table_relation_by_user (declared
base_proxy.py lines 96-101).  Idempotent removal: succeeds whether or not the
edge existed; NotFound when an endpoint does not resolve. -/
def delete_table_relation_by_user (s : Store) (table_uri : String) (user_email : String)
    (relation_type : UserResourceRel) : Except ProxyExc Store :=
  if user_email ∈ s.users then
    if table_uri ∈ s.resources then
      Except.ok { s with relations :=
        s.relations.filter (fun e => e ≠ (user_email, table_uri, relation_type)) }
    else Except.error ProxyExc.notFound
  else Except.error ProxyExc.notFound

/-- Modelled from the spec: BaseProxy.add_owner (declared base_proxy.py lines
32-34); owners form a set of user references on the resource, added
idempotently, with NotFound when an endpoint does not resolve. -/
def add_owner (s : Store) (table_uri : String) (owner : String) : Except ProxyExc Store :=
  if owner ∈ s.users then
    if table_uri ∈ s.resources then
      if (table_uri, owner) ∈ s.owners then Except.ok s
      else Except.ok { s with owners := (table_uri, owner) :: s.owners }
    else Except.error ProxyExc.notFound
  else Except.error ProxyExc.notFound

/-- Modelled from the spec: BaseProxy.delete_owner (declared base_proxy.py
lines 28-30); always returns success even when deletion affected nothing. -/
def delete_owner (s : Store) (table_uri : String) (owner : String) : Except ProxyExc Store :=
  if owner ∈ s.users then
    if table_uri ∈ s.resources then
      Except.ok { s with owners := s.owners.filter (fun e => e ≠ (table_uri, owner)) }
    else Except.error ProxyExc.notFound
  else Except.error ProxyExc.notFound

/-- Modelled from the spec: BaseProxy.get_table_by_user_relation (declared
base_proxy.py lines 80-83); returns all resources related to the user by the
given type, and fails NotFound when the user id does not resolve. -/
def get_table_by_user_relation (s : Store) (user_email : String)
    (relation_type : UserResourceRel) : Except ProxyExc (List String) :=
  if user_email ∈ s.users then
    Except.ok ((s.relations.filter
      (fun e => e.1 = user_email ∧ e.2.2 = relation_type)).map (fun e => e.2.1))
  else Except.error ProxyExc.notFound

/-- Modelled from the spec: BaseProxy.get_table_description (declared
base_proxy.py lines 36-39, returning `Union of str and None`); returns the
current value, or the sentinel none (not an error) when never set. -/
def get_table_description (s : Store) (table_uri : String) : Option String :=
  (s.tableDescs.find? (fun p => p.1 = table_uri)).map (fun p => p.2)

/-- Modelled from the spec: BaseProxy.put_table_description (declared
base_proxy.py lines 41-45); overwrites unconditionally, replacing any prior
value for the scope (last-write-wins). -/
def put_table_description (s : Store) (table_uri : String) (description : String) : Store :=
  { s with tableDescs :=
      (table_uri, description) :: s.tableDescs.filter (fun p => p.1 ≠ table_uri) }

/-- Modelled from the spec: BaseProxy.get_column_description (declared
base_proxy.py lines 62-66); same semantics as the table description, scoped
additionally by column name, failing NotFound when the column does not exist
on the resource. -/
def get_column_description (s : Store) (table_uri : String) (column_name : String) :
    Except ProxyExc (Option String) :=
  if (table_uri, column_name) ∈ s.columns then
    Except.ok ((s.columnDescs.find? (fun p => p.1 = (table_uri, column_name))).map (fun p => p.2))
  else Except.error ProxyExc.notFound

/-- Modelled from the spec: BaseProxy.put_column_description (declared
base_proxy.py lines 55-60); overwrites the column-scoped value, failing
NotFound when the column does not exist on the resource. -/
def put_column_description (s : Store) (table_uri : String) (column_name : String)
    (description : String) : Except ProxyExc Store :=
  if (table_uri, column_name) ∈ s.columns then
    Except.ok { s with columnDescs := ((table_uri, column_name), description) ::
      s.columnDescs.filter (fun p => p.1 ≠ (table_uri, column_name)) }
  else Except.error ProxyExc.notFound

/-- Modelled from the spec: BaseProxy.get_frequently_used_tables (declared
base_proxy.py lines 85-87, taking only the user email — its caller, user.py
line 231, also passes only user_email).  The usage-tracker query returns
the resources the user has read ranked by read counter, descending, ties
broken by the most recent last-read timestamp; the user id must resolve,
else NotFound. -/
def get_frequently_used_tables (s : Store) (user_email : String) :
    Except ProxyExc (List (String × (Nat × Nat))) :=
  if user_email ∈ s.users then
    Except.ok (((s.readCounts.filter (fun p => p.1.1 = user_email)).map
        (fun p => (p.1.2, p.2))).mergeSort
        (fun a b => b.2.1 < a.2.1 ∨ (b.2.1 = a.2.1 ∧ b.2.2 ≤ a.2.2)))
  else Except.error ProxyExc.notFound

/-- Modelled from the spec: BaseProxy.get_latest_updated_ts (declared
base_proxy.py lines 72-74); reflects the most recent mutation timestamp
across all tracked entities. -/
def get_latest_updated_ts (s : Store) : Int :=
  s.latestTs

/-- Modelled from the spec: the usage tracker recordRead operation;
increments the read counter for the pair, creating it if absent, updates the
last-read timestamp, and fails NotFound only when an endpoint does not
resolve. -/
def record_read (s : Store) (user_email : String) (table_uri : String) (now : Nat) :
    Except ProxyExc Store :=
  if user_email ∈ s.users then
    if table_uri ∈ s.resources then
      Except.ok { s with readCounts :=
        ((user_email, table_uri),
          ((((s.readCounts.find? (fun p => p.1 = (user_email, table_uri))).map
              (fun p => p.2.1)).getD 0) + 1, now)) ::
          s.readCounts.filter (fun p => p.1 ≠ (user_email, table_uri)) }
    else Except.error ProxyExc.notFound
  else Except.error ProxyExc.notFound

/-- Modelled from the spec: the mutations tracked by the latest-updated
timestamp, each carrying the timestamp at which the backing store serialized
it. -/
inductive Op
  | addRel (table_uri user_email : String) (t : UserResourceRel) (ts : Nat)
  | delRel (table_uri user_email : String) (t : UserResourceRel) (ts : Nat)
  | addOwn (table_uri owner : String) (ts : Nat)
  | delOwn (table_uri owner : String) (ts : Nat)
  | putDesc (table_uri description : String) (ts : Nat)
  | putColDesc (table_uri column_name description : String) (ts : Nat)
  | readEvt (user_email table_uri : String) (ts : Nat)
deriving DecidableEq, Repr

/-- Modelled from the spec: a mutation that succeeds advances the
latest-updated timestamp to the most recent mutation timestamp; a failed
mutation leaves the store untouched. -/
def stamp (s : Store) (r : Except ProxyExc Store) (ts : Nat) : Store :=
  match r with
  | .ok s2 => { s2 with latestTs := max s.latestTs ts }
  | .error _ => s

/-- Modelled from the spec: one mutation step of the store, dispatching to
the proxy operations and stamping the latest-updated timestamp. -/
def applyOp (s : Store) (op : Op) : Store :=
  match op with
  | .addRel t u rel ts => stamp s (add_table_relation_by_user s t u rel) ts
  | .delRel t u rel ts => stamp s (delete_table_relation_by_user s t u rel) ts
  | .addOwn t o ts => stamp s (add_owner s t o) ts
  | .delOwn t o ts => stamp s (delete_owner s t o) ts
  | .putDesc t d ts => stamp s (Except.ok (put_table_description s t d)) ts
  | .putColDesc t c d ts => stamp s (put_column_description s t c d) ts
  | .readEvt u t ts => stamp s (record_read s u t ts) ts

/-- Store used for concrete witnesses and counterexamples: one resolving
user alice and one resolving table, no edges yet. -/
def exampleStore : Store :=
  { users := ["alice@co.com"]
    resources := ["db://cluster.schema/t1"]
    relations := []
    owners := []
    tableDescs := []
    columns := [("db://cluster.schema/t1", "c1")]
    columnDescs := []
    readCounts := []
    latestTs := 0 }

/-- The exampleStore after alice owns the table. -/
def exampleStoreOwned : Store :=
  { exampleStore with relations := [("alice@co.com", "db://cluster.schema/t1", UserResourceRel.own)] }

/-- The exampleStore after alice follows the table. -/
def exampleStoreFollowed : Store :=
  { exampleStore with relations :=
      [("alice@co.com", "db://cluster.schema/t1", UserResourceRel.follow)] }

/-- Counting a resource in the related-resources view equals counting the
corresponding edge triple in the relation list. -/
theorem count_related (rel : List (String × String × UserResourceRel)) (u r : String)
    (t : UserResourceRel) :
    ((rel.filter (fun e => e.1 = u ∧ e.2.2 = t)).map (fun e => e.2.1)).count r
      = rel.countP (fun e => e = (u, r, t)) := by
  induction rel with
  | nil => rfl
  | cons e tl ih =>
    obtain ⟨a, b, c⟩ := e
    simp only [Bool.decide_and] at ih
    by_cases h1 : a = u ∧ c = t
    · obtain ⟨ha, hc⟩ := h1
      subst ha; subst hc
      by_cases hb : b = r
      · subst hb
        simp [List.filter_cons, List.count_cons, List.countP_cons, ih]
      · simp [List.filter_cons, List.count_cons, List.countP_cons, ih, hb, Ne.symm hb,
          Prod.mk.injEq]
    · have hne : ¬ ((a, b, c) = (u, r, t)) := by
        intro hEq
        exact h1 ⟨congrArg Prod.fst hEq, congrArg (fun p => p.2.2) hEq⟩
      simp [List.filter_cons, List.count_cons, List.countP_cons, ih, h1, hne]

/-- In a duplicate-free list, counting the occurrences of a member by
equality yields exactly one. -/
theorem countP_eq_one_of_nodup (rel : List (String × String × UserResourceRel))
    (x : String × String × UserResourceRel) (hnd : rel.Nodup) (hmem : x ∈ rel) :
    rel.countP (fun e => e = x) = 1 := by
  induction rel with
  | nil => cases hmem
  | cons a tl ih =>
    have hhead := (List.nodup_cons.mp hnd).1
    have htail := (List.nodup_cons.mp hnd).2
    rw [List.countP_cons]
    rcases List.mem_cons.mp hmem with hEq | hmem2
    · have h0 : tl.countP (fun e => e = x) = 0 := by
        rw [List.countP_eq_zero]
        intro e he
        simp only [decide_eq_true_eq]
        intro hEq2
        exact hhead (by rw [← hEq, ← hEq2]; exact he)
      rw [h0, if_pos (decide_eq_true hEq.symm)]
    · have hne : ¬ (a = x) := fun hEq2 => hhead (by rw [hEq2]; exact hmem2)
      rw [ih htail hmem2, if_neg (by simp only [decide_eq_true_eq]; exact hne)]

/-- After a follow edge for (u, r) is present in a duplicate-free relation
list, the related view lists r exactly once; after the idempotent delete the
view no longer lists r. -/
theorem related_once_and_deleted (s2 s3 : Store) (u r : String) (l l2 : List String)
    (hu2 : u ∈ s2.users) (hr2 : r ∈ s2.resources)
    (hnd2 : s2.relations.Nodup)
    (hmem2 : (u, r, UserResourceRel.follow) ∈ s2.relations)
    (hget : get_table_by_user_relation s2 u UserResourceRel.follow = Except.ok l)
    (hdel : delete_table_relation_by_user s2 r u UserResourceRel.follow = Except.ok s3)
    (hget2 : get_table_by_user_relation s3 u UserResourceRel.follow = Except.ok l2) :
    l.count r = 1 ∧ r ∉ l2 := by
  unfold get_table_by_user_relation at hget
  rw [if_pos hu2] at hget
  injection hget with hl
  unfold delete_table_relation_by_user at hdel
  rw [if_pos hu2, if_pos hr2] at hdel
  injection hdel with hs3
  subst hs3
  unfold get_table_by_user_relation at hget2
  rw [if_pos hu2] at hget2
  injection hget2 with hl2
  constructor
  · rw [← hl, count_related]
    exact countP_eq_one_of_nodup s2.relations (u, r, UserResourceRel.follow) hnd2 hmem2
  · rw [← hl2]
    intro hmem
    rw [List.mem_map] at hmem
    obtain ⟨e, he, heq⟩ := hmem
    rw [List.mem_filter] at he
    obtain ⟨heRel, hePred⟩ := he
    rw [List.mem_filter] at heRel
    obtain ⟨heRel2, heNe⟩ := heRel
    obtain ⟨a, b, c⟩ := e
    simp only [decide_eq_true_eq] at hePred
    obtain ⟨ha, hc⟩ := hePred
    have hb : b = r := heq
    simp only [ne_eq, decide_not, Bool.not_eq_true', decide_eq_false_iff_not] at heNe
    exact heNe (by rw [ha, hc, hb])

/-- Modelled from the spec: UserDetailAPI.get (user.py lines 47-48) delegates
to BaseAPI.get (metadata_service/api/base.py, not under src/), which per the
entity-store contract returns the user payload with status 200 when the id
resolves and a 404 NotFound result when it does not. -/
def UserDetailAPI_get (s : Store) (id : String) : Resp String :=
  match get_user s id with
  | some u => ⟨Payload.data u, 200⟩
  | none => ⟨Payload.message ("user_id " ++ id ++ " does not exist"), 404⟩

/-- C1 is false on the code: for a user id that does not resolve, the proxy
add calls fail NotFound, yet UserOwnAPI.put and UserFollowAPI.put respond
with HTTP 500 Internal rather than 404, because both handlers catch every
exception (NotFoundException included) in a single `except Exception`
branch. -/
theorem claim_C1_counterexample :
    add_owner exampleStore "db://cluster.schema/t1" "ghost@x.com"
        = Except.error ProxyExc.notFound
    ∧ add_table_relation_by_user exampleStore "db://cluster.schema/t1" "ghost@x.com"
        UserResourceRel.own = Except.error ProxyExc.notFound
    ∧ (UserOwnAPI_put "ghost@x.com" "db://cluster.schema/t1"
        (Except.error ProxyExc.notFound)).status = 500
    ∧ (UserFollowAPI_put "ghost@x.com" "db://cluster.schema/t1"
        (Except.error ProxyExc.notFound)).status = 500
    ∧ ¬ (UserOwnAPI_put "ghost@x.com" "db://cluster.schema/t1"
        (Except.error ProxyExc.notFound)).status = 404 :=
  ⟨rfl, rfl, rfl, rfl, by decide⟩

/-- C1 amended: for every user id that does not resolve, the add-relation
proxy calls fail NotFound, and the put handlers report Internal (HTTP 500),
not 404, since they catch every exception without a NotFound branch. -/
theorem claim_C1_amended (s : Store) (u r : String) (t : UserResourceRel)
    (h : u ∉ s.users) :
    add_table_relation_by_user s r u t = Except.error ProxyExc.notFound
    ∧ add_owner s r u = Except.error ProxyExc.notFound
    ∧ (UserFollowAPI_put u r
        (Except.map (fun _ => ()) (add_table_relation_by_user s r u t))).status = 500
    ∧ (UserOwnAPI_put u r
        (Except.map (fun _ => ()) (add_owner s r u))).status = 500 := by
  simp [add_table_relation_by_user, add_owner, h, UserFollowAPI_put, UserOwnAPI_put,
    Except.map]

/-- Witness for the amended C1 at a concrete store and user. -/
theorem claim_C1_amended_witness :
    add_table_relation_by_user exampleStore "db://cluster.schema/t1" "ghost@x.com"
        UserResourceRel.follow = Except.error ProxyExc.notFound
    ∧ add_owner exampleStore "db://cluster.schema/t1" "ghost@x.com"
        = Except.error ProxyExc.notFound
    ∧ (UserFollowAPI_put "ghost@x.com" "db://cluster.schema/t1"
        (Except.map (fun _ => ()) (add_table_relation_by_user exampleStore
          "db://cluster.schema/t1" "ghost@x.com" UserResourceRel.follow))).status = 500
    ∧ (UserOwnAPI_put "ghost@x.com" "db://cluster.schema/t1"
        (Except.map (fun _ => ()) (add_owner exampleStore "db://cluster.schema/t1"
          "ghost@x.com"))).status = 500 :=
  claim_C1_amended exampleStore "ghost@x.com" "db://cluster.schema/t1"
    UserResourceRel.follow (by decide)

/-- C2: every user-API handler converts any exception that is not the
explicit NotFoundException into a 500 Internal response with a message, and
every proxy outcome is mapped to one of the statuses 200, 404, 500 — the
handlers are total, so no exception propagates as a crash. -/
theorem claim_C2 : ∀ (u r m : String) (callL : Except ProxyExc (List String))
    (callU : Except ProxyExc Unit),
    (UserFollowsAPI_get u (Except.error (ProxyExc.other m) :
        Except ProxyExc (List String))).status = 500
    ∧ (UserOwnsAPI_get u (Except.error (ProxyExc.other m) :
        Except ProxyExc (List String))).status = 500
    ∧ (UserReadsAPI_get u (Except.error (ProxyExc.other m) :
        Except ProxyExc (List String))).status = 500
    ∧ (UserFollowAPI_put u r (Except.error (ProxyExc.other m))).status = 500
    ∧ (UserFollowAPI_delete u r (Except.error (ProxyExc.other m))).status = 500
    ∧ (UserOwnAPI_put u r (Except.error (ProxyExc.other m))).status = 500
    ∧ (UserOwnAPI_delete u r (Except.error (ProxyExc.other m))).status = 500
    ∧ ((UserFollowsAPI_get u callL).status = 200 ∨ (UserFollowsAPI_get u callL).status = 404
        ∨ (UserFollowsAPI_get u callL).status = 500)
    ∧ ((UserOwnsAPI_get u callL).status = 200 ∨ (UserOwnsAPI_get u callL).status = 404
        ∨ (UserOwnsAPI_get u callL).status = 500)
    ∧ ((UserReadsAPI_get u callL).status = 200 ∨ (UserReadsAPI_get u callL).status = 404
        ∨ (UserReadsAPI_get u callL).status = 500)
    ∧ ((UserFollowAPI_put u r callU).status = 200 ∨ (UserFollowAPI_put u r callU).status = 500)
    ∧ ((UserFollowAPI_delete u r callU).status = 200
        ∨ (UserFollowAPI_delete u r callU).status = 500)
    ∧ ((UserOwnAPI_put u r callU).status = 200 ∨ (UserOwnAPI_put u r callU).status = 500)
    ∧ ((UserOwnAPI_delete u r callU).status = 200
        ∨ (UserOwnAPI_delete u r callU).status = 500) := by
  intro u r m callL callU
  refine ⟨rfl, rfl, rfl, rfl, rfl, rfl, rfl, ?_, ?_, ?_, ?_, ?_, ?_, ?_⟩
  · rcases callL with e | l
    · rcases e with _ | _ | m2
      · exact Or.inr (Or.inl rfl)
      · exact Or.inr (Or.inr rfl)
      · exact Or.inr (Or.inr rfl)
    · exact Or.inl rfl
  · rcases callL with e | l
    · rcases e with _ | _ | m2
      · exact Or.inr (Or.inl rfl)
      · exact Or.inr (Or.inr rfl)
      · exact Or.inr (Or.inr rfl)
    · rcases l with _ | ⟨a, tl⟩
      · exact Or.inl rfl
      · exact Or.inl (by simp [UserOwnsAPI_get])
  · rcases callL with e | l
    · rcases e with _ | _ | m2
      · exact Or.inr (Or.inl rfl)
      · exact Or.inr (Or.inr rfl)
      · exact Or.inr (Or.inr rfl)
    · exact Or.inl rfl
  · rcases callU with e | x
    · exact Or.inr rfl
    · exact Or.inl rfl
  · rcases callU with e | x
    · exact Or.inr rfl
    · exact Or.inl rfl
  · rcases callU with e | x
    · exact Or.inr rfl
    · exact Or.inl rfl
  · rcases callU with e | x
    · exact Or.inr rfl
    · exact Or.inl rfl

/-- C3: the list-related-resources handlers return 200 with a (possibly
empty) list exactly when the proxy call succeeds, and 404 exactly when the
proxy reports NotFound; composed with the relation query, 404 happens
exactly when the user id does not resolve, and an empty relation set is a
200 success. -/
theorem claim_C3 : ∀ (s : Store) (u : String) (call : Except ProxyExc (List String)),
    ((UserFollowsAPI_get u call).status = 200 ↔ ∃ l, call = Except.ok l)
    ∧ ((UserFollowsAPI_get u call).status = 404 ↔ call = Except.error ProxyExc.notFound)
    ∧ ((UserOwnsAPI_get u call).status = 200 ↔ ∃ l, call = Except.ok l)
    ∧ ((UserOwnsAPI_get u call).status = 404 ↔ call = Except.error ProxyExc.notFound)
    ∧ UserFollowsAPI_get u (Except.ok ([] : List String)) = ⟨Payload.data [], 200⟩
    ∧ UserOwnsAPI_get u (Except.ok ([] : List String)) = ⟨Payload.data [], 200⟩
    ∧ ((UserFollowsAPI_get u
        (get_table_by_user_relation s u UserResourceRel.follow)).status = 404 ↔ u ∉ s.users)
    ∧ ((UserOwnsAPI_get u
        (get_table_by_user_relation s u UserResourceRel.own)).status = 200 ↔ u ∈ s.users) := by
  intro s u call
  have hfollows : ∀ (c : Except ProxyExc (List String)),
      ((UserFollowsAPI_get u c).status = 200 ↔ ∃ l, c = Except.ok l)
      ∧ ((UserFollowsAPI_get u c).status = 404 ↔ c = Except.error ProxyExc.notFound) := by
    intro c
    rcases c with e | l
    · rcases e with _ | _ | m2 <;> simp [UserFollowsAPI_get]
    · simp [UserFollowsAPI_get]
  have howns : ∀ (c : Except ProxyExc (List String)),
      ((UserOwnsAPI_get u c).status = 200 ↔ ∃ l, c = Except.ok l)
      ∧ ((UserOwnsAPI_get u c).status = 404 ↔ c = Except.error ProxyExc.notFound) := by
    intro c
    rcases c with e | l
    · rcases e with _ | _ | m2 <;> simp [UserOwnsAPI_get]
    · rcases l with _ | ⟨a, tl⟩ <;> simp [UserOwnsAPI_get]
  refine ⟨(hfollows call).1, (hfollows call).2, (howns call).1, (howns call).2, rfl, ?_, ?_, ?_⟩
  · simp [UserOwnsAPI_get]
  · by_cases hu : u ∈ s.users
    · rw [(hfollows _).2]
      simp [get_table_by_user_relation, hu]
    · rw [(hfollows _).2]
      simp [get_table_by_user_relation, hu]
  · by_cases hu : u ∈ s.users
    · rw [(howns _).1]
      simp [get_table_by_user_relation, hu]
    · rw [(howns _).1]
      simp [get_table_by_user_relation, hu]

/-- C6: a description write unconditionally replaces the prior value: put a,
then put b, then get returns b, for every store, resource and strings. -/
theorem claim_C6 : ∀ (s : Store) (r a b : String),
    get_table_description (put_table_description (put_table_description s r a) r b) r
      = some b := by
  intro s r a b
  simp [get_table_description, put_table_description, List.find?_cons_of_pos]

/-- C7: for a resolving resource (and existing column) whose description was
never set, the description getters return the sentinel none, not an
error. -/
theorem claim_C7 (s : Store) (t c : String)
    (ht : t ∈ s.resources)
    (hnever : ∀ p ∈ s.tableDescs, p.1 ≠ t)
    (hc : (t, c) ∈ s.columns)
    (hnever2 : ∀ p ∈ s.columnDescs, p.1 ≠ (t, c)) :
    get_table_description s t = none
    ∧ get_column_description s t c = Except.ok (none : Option String) := by
  constructor
  · have : s.tableDescs.find? (fun p => p.1 = t) = none := by
      rw [List.find?_eq_none]
      intro p hp
      simpa using hnever p hp
    simp [get_table_description, this]
  · have : s.columnDescs.find? (fun p => p.1 = (t, c)) = none := by
      rw [List.find?_eq_none]
      intro p hp
      simpa using hnever2 p hp
    simp [get_column_description, hc, this]

/-- Witness for C7 at a concrete store, resource and column. -/
theorem claim_C7_witness :
    get_table_description exampleStore "db://cluster.schema/t1" = none
    ∧ get_column_description exampleStore "db://cluster.schema/t1" "c1"
        = Except.ok (none : Option String) :=
  claim_C7 exampleStore "db://cluster.schema/t1" "c1" (by decide) (by decide)
    (by decide) (by decide)

/-- C10: at the proxy interface an unresolved user id is represented by the
value none rather than an error, and the user-detail handler handles both
cases: none becomes a 404 result, a resolved user becomes a 200 result. -/
theorem claim_C10 (s s2 : Store) (id i : String)
    (hid : id ∉ s.users) (hres : i ∈ s2.users) :
    get_user s id = none
    ∧ (UserDetailAPI_get s id).status = 404
    ∧ get_user s2 i = some i
    ∧ (UserDetailAPI_get s2 i).status = 200 := by
  refine ⟨?_, ?_, ?_, ?_⟩ <;> simp [get_user, UserDetailAPI_get, hid, hres]

/-- Witness for C10: a ghost id maps to none and 404, alice resolves and
maps to 200, on the concrete example store. -/
theorem claim_C10_witness :
    get_user exampleStore "ghost@x.com" = none
    ∧ (UserDetailAPI_get exampleStore "ghost@x.com").status = 404
    ∧ get_user exampleStore "alice@co.com" = some "alice@co.com"
    ∧ (UserDetailAPI_get exampleStore "alice@co.com").status = 200 :=
  claim_C10 exampleStore exampleStore "ghost@x.com" "alice@co.com" (by decide) (by decide)

/-- C4: add-relation is idempotent on the observable store state (a second
identical add returns the same state unchanged), and deleting a relation
edge or an owner edge that does not exist succeeds and leaves the state
unchanged. -/
theorem claim_C4 (s s2 sd : Store) (u r ud rd : String) (t td : UserResourceRel)
    (hadd : add_table_relation_by_user s r u t = Except.ok s2)
    (hu : ud ∈ sd.users) (hr : rd ∈ sd.resources)
    (hrel : (ud, rd, td) ∉ sd.relations) (hown : (rd, ud) ∉ sd.owners) :
    add_table_relation_by_user s2 r u t = Except.ok s2
    ∧ delete_table_relation_by_user sd rd ud td = Except.ok sd
    ∧ delete_owner sd rd ud = Except.ok sd := by
  refine ⟨?_, ?_, ?_⟩
  · by_cases h1 : u ∈ s.users
    · by_cases h2 : r ∈ s.resources
      · by_cases h3 : (u, r, t) ∈ s.relations
        · simp only [add_table_relation_by_user, if_pos h1, if_pos h2, if_pos h3,
            Except.ok.injEq] at hadd
          subst hadd
          simp [add_table_relation_by_user, h1, h2, h3]
        · simp only [add_table_relation_by_user, if_pos h1, if_pos h2, if_neg h3,
            Except.ok.injEq] at hadd
          subst hadd
          simp [add_table_relation_by_user, h1, h2]
      · simp [add_table_relation_by_user, h1, h2] at hadd
    · simp [add_table_relation_by_user, h1] at hadd
  · have hf : sd.relations.filter (fun e => e ≠ (ud, rd, td)) = sd.relations := by
      rw [List.filter_eq_self]
      intro a ha
      simp only [ne_eq, decide_not, Bool.not_eq_true', decide_eq_false_iff_not]
      intro hEq
      exact hrel (hEq ▸ ha)
    unfold delete_table_relation_by_user
    rw [if_pos hu, if_pos hr, hf]
  · have hf : sd.owners.filter (fun e => e ≠ (rd, ud)) = sd.owners := by
      rw [List.filter_eq_self]
      intro a ha
      simp only [ne_eq, decide_not, Bool.not_eq_true', decide_eq_false_iff_not]
      intro hEq
      exact hown (hEq ▸ ha)
    unfold delete_owner
    rw [if_pos hu, if_pos hr, hf]

/-- Witness for C4 on the concrete example store: adding the own edge once
more is a no-op, and deleting the absent edge or owner leaves the store
unchanged. -/
theorem claim_C4_witness :
    add_table_relation_by_user exampleStoreOwned "db://cluster.schema/t1" "alice@co.com"
        UserResourceRel.own = Except.ok exampleStoreOwned
    ∧ delete_table_relation_by_user exampleStore "db://cluster.schema/t1" "alice@co.com"
        UserResourceRel.own = Except.ok exampleStore
    ∧ delete_owner exampleStore "db://cluster.schema/t1" "alice@co.com"
        = Except.ok exampleStore :=
  claim_C4 exampleStore exampleStoreOwned exampleStore "alice@co.com"
    "db://cluster.schema/t1" "alice@co.com" "db://cluster.schema/t1"
    UserResourceRel.own UserResourceRel.own rfl (by decide) (by decide)
    (by decide) (by decide)

/-- C5: after an add of the follow edge (u, r) succeeds on a duplicate-free
store, the related-resources view for u lists r exactly once; after the
subsequent delete succeeds, the view no longer lists r. -/
theorem claim_C5 (s s2 s3 : Store) (u r : String) (l l2 : List String)
    (hnd : s.relations.Nodup)
    (hadd : add_table_relation_by_user s r u UserResourceRel.follow = Except.ok s2)
    (hget : get_table_by_user_relation s2 u UserResourceRel.follow = Except.ok l)
    (hdel : delete_table_relation_by_user s2 r u UserResourceRel.follow = Except.ok s3)
    (hget2 : get_table_by_user_relation s3 u UserResourceRel.follow = Except.ok l2) :
    l.count r = 1 ∧ r ∉ l2 := by
  by_cases h1 : u ∈ s.users
  · by_cases h2 : r ∈ s.resources
    · by_cases h3 : (u, r, UserResourceRel.follow) ∈ s.relations
      · simp only [add_table_relation_by_user, if_pos h1, if_pos h2, if_pos h3,
          Except.ok.injEq] at hadd
        subst hadd
        exact related_once_and_deleted _ s3 u r l l2 h1 h2 hnd h3 hget hdel hget2
      · simp only [add_table_relation_by_user, if_pos h1, if_pos h2, if_neg h3,
          Except.ok.injEq] at hadd
        subst hadd
        exact related_once_and_deleted
          { s with relations := (u, r, UserResourceRel.follow) :: s.relations } s3 u r l l2
          h1 h2 (List.nodup_cons.mpr ⟨h3, hnd⟩) (List.mem_cons_self _ _) hget hdel hget2
    · simp [add_table_relation_by_user, h1, h2] at hadd
  · simp [add_table_relation_by_user, h1] at hadd

/-- Witness for C5 on the concrete example store: after alice follows the
table it is listed exactly once, and after the delete it is gone. -/
theorem claim_C5_witness :
    (["db://cluster.schema/t1"] : List String).count "db://cluster.schema/t1" = 1
    ∧ "db://cluster.schema/t1" ∉ ([] : List String) :=
  claim_C5 exampleStore exampleStoreFollowed exampleStore "alice@co.com"
    "db://cluster.schema/t1" ["db://cluster.schema/t1"] [] (by decide) rfl rfl rfl rfl

/-- Stamping a mutation outcome never decreases the latest-updated
timestamp. -/
theorem stamp_latestTs_le (s : Store) (r : Except ProxyExc Store) (ts : Nat) :
    s.latestTs ≤ (stamp s r ts).latestTs := by
  cases r with
  | error e => exact Nat.le_refl _
  | ok s2 => exact Nat.le_max_left _ _

/-- One mutation step never decreases the latest-updated timestamp. -/
theorem applyOp_latestTs_le (s : Store) (op : Op) :
    s.latestTs ≤ (applyOp s op).latestTs := by
  cases op <;> exact stamp_latestTs_le _ _ _

/-- C8: the latest-updated timestamp is monotone: across any sequence of
store mutations, a later call to get_latest_updated_ts returns at least the
value an earlier call returned. -/
theorem claim_C8 : ∀ (s : Store) (ops : List Op),
    get_latest_updated_ts s ≤ get_latest_updated_ts (ops.foldl applyOp s) := by
  intro s ops
  induction ops generalizing s with
  | nil => exact le_refl _
  | cons op tl ih =>
    have h1 : s.latestTs ≤ (applyOp s op).latestTs := applyOp_latestTs_le s op
    have h2 := ih (applyOp s op)
    rw [List.foldl_cons]
    unfold get_latest_updated_ts at h2 ⊢
    exact le_trans (by exact_mod_cast h1) h2

end AmundsenMeta
